import Mathlib

/-!
Verification of the unread-state repair tool (management command fix_unreads).

The development shallowly embeds the data model and the repair algorithm of
zerver/management/commands/fix_unreads.py.  Rows of the five database tables
touched by the tool (zerver_stream, zerver_recipient, zerver_subscription,
zerver_message, zerver_usermessage) are modelled as Lean structures, a store
as lists of rows, and each SQL query of the source as a pure function over
the store.  The SQL SELECT queries are embedded as joins (list products)
followed by WHERE filters, exactly mirroring the JOIN/WHERE clauses of the
source; the single UPDATE of the source is embedded as a map over the
usermessage table.  The Django connection runs in autocommit mode (the
source opens no transaction and has no rollback path), so each executed
UPDATE is applied to the store immediately and an error raised later leaves
earlier writes in place.  Fallible steps (the ORM Stream.objects.get lookup,
and execution of a malformed interpolated query) return Except values.
-/

deriving instance DecidableEq for Except

namespace FixUnreads

/-- Errors surfaced by a repair run: unknownChannel models the ORM
Stream.DoesNotExist raised by Stream.objects.get when a muted channel name
does not resolve; storeError models any other database-level failure
(a malformed query, a non-unique get result, a missing dict key). -/
inductive Err where
  | unknownChannel
  | storeError
deriving DecidableEq

/-- Row of zerver_stream: a named, realm-scoped channel. -/
structure Stream where
  id : Nat
  name : String
  realm_id : Nat
deriving DecidableEq

/-- Row of zerver_recipient: the addressing indirection; type 2 is a stream
(channel) recipient and type_id is then the stream id. -/
structure Recipient where
  id : Nat
  type : Nat
  type_id : Nat
deriving DecidableEq

/-- Row of zerver_subscription. -/
structure Subscription where
  user_profile_id : Nat
  recipient_id : Nat
  active : Bool
  in_home_view : Bool
deriving DecidableEq

/-- Row of zerver_message: id is the global monotone ordering key, subject
the topic label. -/
structure Message where
  id : Nat
  recipient_id : Nat
  subject : String
deriving DecidableEq

/-- Row of zerver_usermessage: the per-(user, message) delivery record.
Bit 0 of flags is the read bit; all other bits are opaque. -/
structure UserMessage where
  id : Nat
  user_profile_id : Nat
  message_id : Nat
  flags : Nat
deriving DecidableEq

/-- The fields of UserProfile read by the tool.  The pointer column is the
last-read marker; none models SQL NULL and Python treats both None and 0 as
falsy in the guard of fix_pre_pointer.  The muted_topics column holds a JSON
list of [stream_name, topic] pairs; the source parses it with ujson.loads,
so it is modelled here already parsed, as a list of string pairs. -/
structure UserProfile where
  id : Nat
  realm_id : Nat
  pointer : Option Nat
  muted_topics : List (String × String)
deriving DecidableEq

/-- The message store: one list of rows per table. -/
structure Store where
  streams : List Stream
  recipients : List Recipient
  subscriptions : List Subscription
  messages : List Message
  usermessages : List UserMessage
deriving DecidableEq

/-- Queries issued against the store, recorded so that theorems can speak
about which reads and writes a pass performs. -/
inductive Query where
  | selectStaleRecipients (user_profile_id : Nat)
  | selectUnsubscribedUnread (user_profile_id : Nat) (recipient_ids : List Nat)
  | updateReadFlag (usermessage_ids : List Nat)
  | selectStreamId (name : String) (realm_id : Nat)
  | selectNonMutedRecipients (user_profile_id : Nat)
  | selectPrePointerCandidates (user_profile_id : Nat) (pointer : Nat)
      (recipient_ids : List Nat)
deriving DecidableEq

/-- True exactly for the UPDATE query (the only write the tool issues). -/
def Query.isWrite : Query → Bool
  | .updateReadFlag _ => true
  | _ => false

/-- Lowercasing as performed by the Python str.lower calls of the source
(and by the case-insensitive iexact lookup), character by character. -/
def lowerStr (s : String) : String := ⟨s.data.map Char.toLower⟩

/-- Whitespace stripping from both ends, as performed by the Python
str.strip call of build_topic_mute_checker on each muted stream name. -/
def stripStr (s : String) : String :=
  ⟨((s.data.dropWhile Char.isWhitespace).reverse.dropWhile Char.isWhitespace).reverse⟩

/-- Embedding of the find_recipients query of fix_unsubscribed: recipient
ids of stream-type recipients to which the user holds a subscription row
with active = false (SELECT recipient_id FROM subscription JOIN recipient
WHERE user AND type = 2 AND NOT active). -/
def staleRecipientIds (st : Store) (u : UserProfile) : List Nat :=
  (st.subscriptions.flatMap (fun s => st.recipients.map (fun r => (s, r)))).filterMap
    (fun sr =>
      if sr.2.id = sr.1.recipient_id ∧ sr.1.user_profile_id = u.id ∧
         sr.2.type = 2 ∧ sr.1.active = false
      then some sr.1.recipient_id else none)

/-- Embedding of the find query of fix_unsubscribed: ids of usermessage rows
of the user with the read bit clear whose message recipient lies in the
given recipient-id list (SELECT usermessage.id FROM usermessage JOIN message
WHERE user AND flags AND 1 = 0 AND message.recipient_id IN recips). -/
def unsubscribedUnreadIds (st : Store) (u : UserProfile)
    (recipient_ids : List Nat) : List Nat :=
  (st.usermessages.flatMap (fun um => st.messages.map (fun m => (um, m)))).filterMap
    (fun p =>
      if p.2.id = p.1.message_id ∧ p.1.user_profile_id = u.id ∧
         p.1.flags &&& 1 = 0 ∧ p.2.recipient_id ∈ recipient_ids
      then some p.1.id else none)

/-- Embedding of the UPDATE of the nested fix helper: SET flags = flags OR 1
WHERE id IN id list.  Every other column and every row outside the id list
is left untouched. -/
def setReadFlag (ums : List UserMessage) (ids : List Nat) : List UserMessage :=
  ums.map (fun um => if um.id ∈ ids then { um with flags := um.flags ||| 1 } else um)

/-- Result of one pass: the store after the pass, the queries it executed,
and the usermessage-id list its find step produced. -/
structure PassResult where
  store : Store
  log : List Query
  ids : List Nat
deriving DecidableEq

/-- Embedding of fix_unsubscribed: find stale recipients, short-circuit when
the list is empty, otherwise find the affected unread usermessage ids,
short-circuit when that list is empty, otherwise issue the bulk read-bit
UPDATE on exactly those ids. -/
def fix_unsubscribed (st : Store) (u : UserProfile) : PassResult :=
  let recipient_ids := staleRecipientIds st u
  if recipient_ids = [] then
    ⟨st, [Query.selectStaleRecipients u.id], []⟩
  else
    let user_message_ids := unsubscribedUnreadIds st u recipient_ids
    if user_message_ids = [] then
      ⟨st, [Query.selectStaleRecipients u.id,
            Query.selectUnsubscribedUnread u.id recipient_ids], user_message_ids⟩
    else
      ⟨{ st with usermessages := setReadFlag st.usermessages user_message_ids },
       [Query.selectStaleRecipients u.id,
        Query.selectUnsubscribedUnread u.id recipient_ids,
        Query.updateReadFlag user_message_ids], user_message_ids⟩

/-- Embedding of the ORM call Stream.objects.get with name iexact equal to
the stripped name and the realm id of the user: exactly one matching row
yields its id, no row raises Stream.DoesNotExist (unknownChannel), several
rows raise MultipleObjectsReturned (a storeError here). -/
def getStreamId (st : Store) (realm_id : Nat) (name : String) : Except Err Nat :=
  match st.streams.filter (fun s =>
      decide (lowerStr s.name = lowerStr (stripStr name) ∧ s.realm_id = realm_id)) with
  | [s] => .ok s.id
  | [] => .error Err.unknownChannel
  | _ => .error Err.storeError

/-- Deduplication of the muted stream names, modelling the Python set
comprehension over the rows (iteration order of a Python set is arbitrary,
so any fixed order is a faithful model). -/
def uniqueNames : List String → List String
  | [] => []
  | n :: rest =>
    let u := uniqueNames rest
    if n ∈ u then u else n :: u

/-- Resolution loop of build_topic_mute_checker: one getStreamId lookup per
distinct muted stream name, building the stream_dict assoc list; the first
failing lookup aborts the construction. -/
def resolveStreams (st : Store) (realm_id : Nat) :
    List String → Except Err (List (String × Nat) × List Query)
  | [] => .ok ([], [])
  | name :: rest =>
    match getStreamId st realm_id name with
    | .error e => .error e
    | .ok sid =>
      match resolveStreams st realm_id rest with
      | .error e => .error e
      | .ok (dict, qlog) =>
        .ok ((name, sid) :: dict, Query.selectStreamId name realm_id :: qlog)

/-- Second loop of build_topic_mute_checker: the tups set of pairs of
resolved stream id and lowercased topic, one entry per mute rule.  A name
missing from stream_dict would be a Python KeyError, modelled as a
storeError; it cannot occur after a successful resolveStreams. -/
def buildTups (stream_dict : List (String × Nat)) :
    List (String × String) → Except Err (List (Nat × String))
  | [] => .ok []
  | (stream_name, topic) :: rest =>
    match stream_dict.lookup stream_name with
    | none => .error Err.storeError
    | some stream_id =>
      match buildTups stream_dict rest with
      | .error e => .error e
      | .ok tl => .ok ((stream_id, lowerStr topic) :: tl)

/-- Embedding of build_topic_mute_checker: parse rows, deduplicate stream
names, resolve each to a stream id, and build the tups set underlying the
returned is_muted closure. -/
def build_topic_mute_checker (st : Store) (u : UserProfile) :
    Except Err (List (Nat × String) × List Query) :=
  let rows := u.muted_topics
  let stream_names := uniqueNames (rows.map Prod.fst)
  match resolveStreams st u.realm_id stream_names with
  | .error e => .error e
  | .ok (stream_dict, qlog) =>
    match buildTups stream_dict rows with
    | .error e => .error e
    | .ok tups => .ok (tups, qlog)

/-- Embedding of the is_muted closure returned by build_topic_mute_checker:
membership of the pair of stream id and lowercased topic in tups.  It is a
pure function of its arguments: it performs no store access and mutates
nothing. -/
def is_muted (tups : List (Nat × String)) (stream_id : Nat) (topic : String) : Bool :=
  decide ((stream_id, lowerStr topic) ∈ tups)

/-- Embedding of the find_non_muted_recipients query of fix_pre_pointer:
recipient ids of stream-type recipients whose subscription row of the user
has in_home_view and active both set. -/
def eligibleRecipientIds (st : Store) (u : UserProfile) : List Nat :=
  (st.subscriptions.flatMap (fun s => st.recipients.map (fun r => (s, r)))).filterMap
    (fun sr =>
      if sr.2.id = sr.1.recipient_id ∧ sr.1.user_profile_id = u.id ∧
         sr.2.type = 2 ∧ sr.1.in_home_view = true ∧ sr.1.active = true
      then some sr.1.recipient_id else none)

/-- Embedding of the SELECT of find_old_ids: triples of usermessage id,
recipient type_id (the stream id) and message subject, over the join of
usermessage, message and recipient, for unread rows of the user with
message id at most the pointer and message recipient in the given list. -/
def prePointerCandidates (st : Store) (u : UserProfile) (pointer : Nat)
    (recipient_ids : List Nat) : List (Nat × Nat × String) :=
  (st.usermessages.flatMap (fun um =>
    st.messages.flatMap (fun m =>
      st.recipients.map (fun r => (um, m, r))))).filterMap
    (fun t =>
      if t.2.1.id = t.1.message_id ∧ t.2.2.id = t.2.1.recipient_id ∧
         t.1.user_profile_id = u.id ∧ t.2.1.id ≤ pointer ∧
         t.1.flags &&& 1 = 0 ∧ t.2.1.recipient_id ∈ recipient_ids
      then some (t.1.id, t.2.2.type_id, t.2.1.subject) else none)

/-- The Python string interpolated for the IN clauses of the source, a
comma-separated join of the ids. -/
def recipsJoined (ids : List Nat) : String :=
  String.intercalate ", " (ids.map toString)

/-- The IN clause fragment of the interpolated find_old_ids query text. -/
def inClause (ids : List Nat) : String :=
  "in (" ++ recipsJoined ids ++ ")"

/-- Embedding of fix_pre_pointer.  A falsy pointer (NULL or 0) returns at
once, before the mute checker is built and before any query is issued.
Otherwise the mute checker is built (its lookup failures propagate), the
eligible recipients are fetched, and the candidate query is executed with
the recipient-id list interpolated into its IN clause; with an empty list
the interpolated SQL contains the malformed fragment in () and its
execution fails, modelled as a storeError.  The surviving candidate rows
are filtered through is_muted; unlike fix_unsubscribed, no UPDATE is ever
issued for the resulting id list. -/
def fix_pre_pointer (st : Store) (u : UserProfile) :
    Except Err (List Query × List Nat) :=
  match u.pointer with
  | none => .ok ([], [])
  | some pointer =>
    if pointer = 0 then .ok ([], [])
    else
      match build_topic_mute_checker st u with
      | .error e => .error e
      | .ok (tups, mlog) =>
        let recipient_ids := eligibleRecipientIds st u
        if recipient_ids = [] then
          .error Err.storeError
        else
          let rows := prePointerCandidates st u pointer recipient_ids
          let user_message_ids :=
            (rows.filter (fun row => !is_muted tups row.2.1 row.2.2)).map (·.1)
          .ok (mlog ++ [Query.selectNonMutedRecipients u.id,
                        Query.selectPrePointerCandidates u.id pointer recipient_ids],
               user_message_ids)

/-- Outcome of one per-user repair run: the final store, the executed
queries, the surfaced error if any, and the id lists the two passes found
(the printed row counts of the source are their lengths). -/
structure RepairResult where
  store : Store
  log : List Query
  err : Option Err
  pass1Ids : List Nat
  pass2Ids : List Nat
deriving DecidableEq

/-- Embedding of the per-user entry point fix: run fix_unsubscribed, then
fix_pre_pointer over the same connection.  The connection is in autocommit
mode and the source installs no rollback handler, so the writes of
fix_unsubscribed are already persisted when fix_pre_pointer raises; an
error therefore surfaces with the post-first-pass store as the final
state. -/
def fix (st : Store) (u : UserProfile) : RepairResult :=
  let r1 := fix_unsubscribed st u
  match fix_pre_pointer r1.store u with
  | .error e => ⟨r1.store, r1.log, some e, r1.ids, []⟩
  | .ok (qlog, ids) => ⟨r1.store, r1.log ++ qlog, none, r1.ids, ids⟩

/-! Concrete fixtures used by counterexamples and witnesses. -/

/-- Fixture: one active in_home_view channel subscription, a set pointer,
one unread pre-pointer message, no mute rules. -/
def stA : Store :=
  ⟨[⟨100, "general", 1⟩], [⟨1, 2, 100⟩], [⟨1, 1, true, true⟩],
   [⟨3, 1, "hi"⟩], [⟨7, 1, 3, 0⟩]⟩

/-- User of fixture stA. -/
def uA : UserProfile := ⟨1, 1, some 10, []⟩

/-- Fixture: a channel recipient with no subscription row at all, one unread
message addressed to it, pointer unset. -/
def stB : Store :=
  ⟨[], [⟨1, 2, 100⟩], [], [⟨3, 1, "hi"⟩], [⟨7, 1, 3, 0⟩]⟩

/-- User of fixture stB. -/
def uB : UserProfile := ⟨1, 1, none, []⟩

/-- Fixture: an inactive subscription with an unread message (flags 6, read
bit clear, other bits set), a set pointer, and a mute rule naming a channel
that does not resolve. -/
def stC : Store :=
  ⟨[], [⟨1, 2, 100⟩], [⟨1, 1, false, true⟩], [⟨3, 1, "hi"⟩], [⟨7, 1, 3, 6⟩]⟩

/-- User of fixture stC. -/
def uC : UserProfile := ⟨1, 1, some 10, [("ghost", "topicx")]⟩

/-- Fixture: an active in_home_view subscription, a set pointer, one unread
pre-pointer message on a muted topic (mute rule differing in case in both
components) and one on an unmuted topic. -/
def stD : Store :=
  ⟨[⟨100, "general", 1⟩], [⟨1, 2, 100⟩], [⟨1, 1, true, true⟩],
   [⟨3, 1, "Secret"⟩, ⟨4, 1, "open"⟩], [⟨7, 1, 3, 0⟩, ⟨8, 1, 4, 0⟩]⟩

/-- User of fixture stD. -/
def uD : UserProfile := ⟨1, 1, some 10, [("General", "sEcReT")]⟩

/-- Fixture: a set pointer, no mute rules and no subscriptions at all, so
the eligible-recipient set of the pre-pointer pass is empty. -/
def stE : Store := ⟨[], [], [], [], []⟩

/-- User of fixture stE. -/
def uE : UserProfile := ⟨1, 1, some 10, []⟩

/-! Arithmetic facts about the read bit: ORing with 1 touches only bit 0,
and only upward. -/

theorem or_one_and_one (x : Nat) : (x ||| 1) &&& 1 = 1 := by
  have h0 : (x ||| 1).testBit 0 = true := by
    rw [Nat.testBit_or]
    simp [Nat.testBit_zero]
  rw [Nat.testBit_zero] at h0
  rw [Nat.and_one_is_mod]
  exact of_decide_eq_true h0

theorem or_one_shiftRight (x : Nat) : (x ||| 1) >>> 1 = x >>> 1 := by
  apply Nat.eq_of_testBit_eq
  intro i
  rw [Nat.testBit_shiftRight, Nat.testBit_shiftRight, Nat.testBit_or]
  have h1 : Nat.testBit 1 (1 + i) = false :=
    Nat.testBit_lt_two_pow (Nat.one_lt_two_pow (by omega))
  rw [h1, Bool.or_false]

theorem and_one_le_or_one (x : Nat) : x &&& 1 ≤ (x ||| 1) &&& 1 := by
  rw [or_one_and_one, Nat.and_one_is_mod]
  omega

theorem and_one_eq_one_of_ne_zero {x : Nat} (h : ¬ x &&& 1 = 0) : x &&& 1 = 1 := by
  rw [Nat.and_one_is_mod] at h ⊢
  omega

/-! Lowercasing is idempotent, character by character. -/

theorem char_toNat_ofNat (n : Nat) (h : n < 0xd800) : (Char.ofNat n).toNat = n := by
  have hv : n.isValidChar := Or.inl h
  simp [Char.ofNat, hv, Char.ofNatAux, Char.toNat, UInt32.toNat, BitVec.toNat_ofNatLt]

theorem char_toLower_unfold (c : Char) :
    c.toLower = if c.toNat ≥ 65 ∧ c.toNat ≤ 90 then Char.ofNat (c.toNat + 32) else c := rfl

theorem char_toLower_idem (c : Char) : c.toLower.toLower = c.toLower := by
  by_cases h : c.toNat ≥ 65 ∧ c.toNat ≤ 90
  · rw [char_toLower_unfold c, if_pos h, char_toLower_unfold]
    have hn : (Char.ofNat (c.toNat + 32)).toNat = c.toNat + 32 :=
      char_toNat_ofNat _ (by omega)
    rw [hn, if_neg (by omega)]
  · rw [char_toLower_unfold c, if_neg h, char_toLower_unfold, if_neg h]

theorem lowerStr_idem (s : String) : lowerStr (lowerStr s) = lowerStr s := by
  unfold lowerStr
  rw [List.map_map]
  exact congrArg String.mk (List.map_congr_left (fun c _ => char_toLower_idem c))

/-! Shape of the first pass: its store is always the initial store with the
read bit set on exactly the ids its find step produced. -/

theorem setReadFlag_nil (ums : List UserMessage) : setReadFlag ums [] = ums := by
  unfold setReadFlag
  simp

theorem fix_unsubscribed_store_eq (st : Store) (u : UserProfile) :
    (fix_unsubscribed st u).store =
      { st with usermessages := setReadFlag st.usermessages (fix_unsubscribed st u).ids } := by
  unfold fix_unsubscribed
  dsimp only
  split
  · simp [setReadFlag_nil]
  · split
    · next h => simp [h, setReadFlag_nil]
    · rfl

theorem fix_unsubscribed_ids_eq (st : Store) (u : UserProfile)
    (h : ¬ staleRecipientIds st u = []) :
    (fix_unsubscribed st u).ids = unsubscribedUnreadIds st u (staleRecipientIds st u) := by
  unfold fix_unsubscribed
  dsimp only
  rw [if_neg h]
  split
  · rfl
  · rfl

theorem fix_unsubscribed_ids_nil (st : Store) (u : UserProfile)
    (h : staleRecipientIds st u = []) : (fix_unsubscribed st u).ids = [] := by
  unfold fix_unsubscribed
  dsimp only
  rw [if_pos h]

/-! Frame facts: queries that read only table families other than
zerver_usermessage are unaffected by the UPDATE of the first pass. -/

theorem staleRecipientIds_frame (st : Store) (v : List UserMessage) (u : UserProfile) :
    staleRecipientIds { st with usermessages := v } u = staleRecipientIds st u := rfl

theorem eligibleRecipientIds_frame (st : Store) (v : List UserMessage) (u : UserProfile) :
    eligibleRecipientIds { st with usermessages := v } u = eligibleRecipientIds st u := rfl

theorem getStreamId_frame (st : Store) (v : List UserMessage) (realm_id : Nat)
    (name : String) :
    getStreamId { st with usermessages := v } realm_id name = getStreamId st realm_id name := rfl

theorem resolveStreams_frame (st : Store) (v : List UserMessage) (realm_id : Nat) :
    ∀ names, resolveStreams { st with usermessages := v } realm_id names =
      resolveStreams st realm_id names
  | [] => rfl
  | name :: rest => by
    unfold resolveStreams
    rw [getStreamId_frame, resolveStreams_frame st v realm_id rest]

theorem build_topic_mute_checker_frame (st : Store) (v : List UserMessage) (u : UserProfile) :
    build_topic_mute_checker { st with usermessages := v } u =
      build_topic_mute_checker st u := by
  unfold build_topic_mute_checker
  dsimp only
  rw [resolveStreams_frame]

/-! Membership characterizations of the embedded SELECT queries. -/

theorem mem_staleRecipientIds {st : Store} {u : UserProfile} {x : Nat} :
    x ∈ staleRecipientIds st u ↔
      ∃ s ∈ st.subscriptions, ∃ r ∈ st.recipients,
        r.id = s.recipient_id ∧ s.user_profile_id = u.id ∧ r.type = 2 ∧
        s.active = false ∧ s.recipient_id = x := by
  unfold staleRecipientIds
  simp only [List.mem_filterMap, List.mem_flatMap, List.mem_map,
    Option.ite_none_right_eq_some, Option.some.injEq]
  constructor
  · rintro ⟨p, ⟨s, hs, r, hr, heq⟩, ⟨h1, h2, h3, h4⟩, h5⟩
    subst heq
    exact ⟨s, hs, r, hr, h1, h2, h3, h4, h5⟩
  · rintro ⟨s, hs, r, hr, h1, h2, h3, h4, h5⟩
    exact ⟨(s, r), ⟨s, hs, r, hr, rfl⟩, ⟨h1, h2, h3, h4⟩, h5⟩

theorem mem_eligibleRecipientIds {st : Store} {u : UserProfile} {x : Nat} :
    x ∈ eligibleRecipientIds st u ↔
      ∃ s ∈ st.subscriptions, ∃ r ∈ st.recipients,
        r.id = s.recipient_id ∧ s.user_profile_id = u.id ∧ r.type = 2 ∧
        s.in_home_view = true ∧ s.active = true ∧ s.recipient_id = x := by
  unfold eligibleRecipientIds
  simp only [List.mem_filterMap, List.mem_flatMap, List.mem_map,
    Option.ite_none_right_eq_some, Option.some.injEq]
  constructor
  · rintro ⟨p, ⟨s, hs, r, hr, heq⟩, ⟨h1, h2, h3, h4, h5⟩, h6⟩
    subst heq
    exact ⟨s, hs, r, hr, h1, h2, h3, h4, h5, h6⟩
  · rintro ⟨s, hs, r, hr, h1, h2, h3, h4, h5, h6⟩
    exact ⟨(s, r), ⟨s, hs, r, hr, rfl⟩, ⟨h1, h2, h3, h4, h5⟩, h6⟩

theorem mem_unsubscribedUnreadIds {st : Store} {u : UserProfile}
    {recipient_ids : List Nat} {x : Nat} :
    x ∈ unsubscribedUnreadIds st u recipient_ids ↔
      ∃ um ∈ st.usermessages, ∃ m ∈ st.messages,
        m.id = um.message_id ∧ um.user_profile_id = u.id ∧
        um.flags &&& 1 = 0 ∧ m.recipient_id ∈ recipient_ids ∧ um.id = x := by
  unfold unsubscribedUnreadIds
  simp only [List.mem_filterMap, List.mem_flatMap, List.mem_map,
    Option.ite_none_right_eq_some, Option.some.injEq]
  constructor
  · rintro ⟨p, ⟨um, hum, m, hm, heq⟩, ⟨h1, h2, h3, h4⟩, h5⟩
    subst heq
    exact ⟨um, hum, m, hm, h1, h2, h3, h4, h5⟩
  · rintro ⟨um, hum, m, hm, h1, h2, h3, h4, h5⟩
    exact ⟨(um, m), ⟨um, hum, m, hm, rfl⟩, ⟨h1, h2, h3, h4⟩, h5⟩

theorem mem_prePointerCandidates {st : Store} {u : UserProfile} {pointer : Nat}
    {recipient_ids : List Nat} {t : Nat × Nat × String} :
    t ∈ prePointerCandidates st u pointer recipient_ids ↔
      ∃ um ∈ st.usermessages, ∃ m ∈ st.messages, ∃ r ∈ st.recipients,
        m.id = um.message_id ∧ r.id = m.recipient_id ∧
        um.user_profile_id = u.id ∧ m.id ≤ pointer ∧
        um.flags &&& 1 = 0 ∧ m.recipient_id ∈ recipient_ids ∧
        (um.id, r.type_id, m.subject) = t := by
  unfold prePointerCandidates
  simp only [List.mem_filterMap, List.mem_flatMap, List.mem_map,
    Option.ite_none_right_eq_some, Option.some.injEq]
  constructor
  · rintro ⟨p, ⟨um, hum, m, hm, r, hr, heq⟩, ⟨h1, h2, h3, h4, h5, h6⟩, h7⟩
    subst heq
    exact ⟨um, hum, m, hm, r, hr, h1, h2, h3, h4, h5, h6, h7⟩
  · rintro ⟨um, hum, m, hm, r, hr, h1, h2, h3, h4, h5, h6, h7⟩
    exact ⟨(um, m, r), ⟨um, hum, m, hm, r, hr, rfl⟩, ⟨h1, h2, h3, h4, h5, h6⟩, h7⟩

/-! Orchestrator facts. -/

theorem fix_store_eq (st : Store) (u : UserProfile) :
    (fix st u).store = (fix_unsubscribed st u).store := by
  unfold fix
  dsimp only
  split <;> rfl

theorem fix_pass1Ids_eq (st : Store) (u : UserProfile) :
    (fix st u).pass1Ids = (fix_unsubscribed st u).ids := by
  unfold fix
  dsimp only
  split <;> rfl

/-! Facts about the mute-checker construction. -/

theorem mem_uniqueNames {a : String} : ∀ {l : List String}, a ∈ uniqueNames l ↔ a ∈ l
  | [] => Iff.rfl
  | n :: rest => by
    unfold uniqueNames
    dsimp only
    by_cases h : n ∈ uniqueNames rest
    · rw [if_pos h, List.mem_cons]
      constructor
      · intro h2
        exact Or.inr (mem_uniqueNames.mp h2)
      · rintro (h2 | h2)
        · subst h2; exact h
        · exact mem_uniqueNames.mpr h2
    · rw [if_neg h, List.mem_cons, List.mem_cons]
      constructor
      · rintro (h2 | h2)
        · exact Or.inl h2
        · exact Or.inr (mem_uniqueNames.mp h2)
      · rintro (h2 | h2)
        · exact Or.inl h2
        · exact Or.inr (mem_uniqueNames.mpr h2)

theorem resolveStreams_error (st : Store) (realm_id : Nat) {name : String} {e0 : Err} :
    ∀ {names : List String}, name ∈ names → getStreamId st realm_id name = .error e0 →
      ∃ e, resolveStreams st realm_id names = .error e
  | [], hmem, _ => absurd hmem (List.not_mem_nil name)
  | n :: rest, hmem, hfail => by
    unfold resolveStreams
    rcases List.mem_cons.mp hmem with h | h
    · rw [← h, hfail]
      exact ⟨e0, rfl⟩
    · match hg : getStreamId st realm_id n with
      | .error e => exact ⟨e, rfl⟩
      | .ok sid =>
        obtain ⟨e, he⟩ := resolveStreams_error st realm_id h hfail
        rw [he]
        exact ⟨e, rfl⟩

theorem build_topic_mute_checker_error (st : Store) (u : UserProfile)
    {name : String} {e0 : Err} (hname : name ∈ u.muted_topics.map Prod.fst)
    (hfail : getStreamId st u.realm_id name = .error e0) :
    ∃ e, build_topic_mute_checker st u = .error e := by
  obtain ⟨e, he⟩ :=
    resolveStreams_error st u.realm_id (mem_uniqueNames.mpr hname) hfail
  unfold build_topic_mute_checker
  dsimp only
  rw [he]
  exact ⟨e, rfl⟩

theorem resolveStreams_writes_free (st : Store) (realm_id : Nat) :
    ∀ {names : List String} {dict : List (String × Nat)} {qlog : List Query},
      resolveStreams st realm_id names = .ok (dict, qlog) →
      ∀ q ∈ qlog, q.isWrite = false
  | [], dict, qlog, h => by
    unfold resolveStreams at h
    cases h
    intro q hq
    exact absurd hq (List.not_mem_nil q)
  | n :: rest, dict, qlog, h => by
    unfold resolveStreams at h
    match hg : getStreamId st realm_id n with
    | .error e => rw [hg] at h; cases h
    | .ok sid =>
      rw [hg] at h
      match hr : resolveStreams st realm_id rest with
      | .error e => rw [hr] at h; cases h
      | .ok (d2, l2) =>
        rw [hr] at h
        cases h
        intro q hq
        rcases List.mem_cons.mp hq with h2 | h2
        · rw [h2]; rfl
        · exact resolveStreams_writes_free st realm_id hr q h2

theorem build_topic_mute_checker_writes_free (st : Store) (u : UserProfile)
    {tups : List (Nat × String)} {mlog : List Query}
    (hb : build_topic_mute_checker st u = .ok (tups, mlog)) :
    ∀ q ∈ mlog, q.isWrite = false := by
  unfold build_topic_mute_checker at hb
  dsimp only at hb
  match hr : resolveStreams st u.realm_id (uniqueNames (u.muted_topics.map Prod.fst)) with
  | .error e => rw [hr] at hb; cases hb
  | .ok (dict, qlog) =>
    rw [hr] at hb
    dsimp only at hb
    match ht : buildTups dict u.muted_topics with
    | .error e => rw [ht] at hb; cases hb
    | .ok tups2 =>
      rw [ht] at hb
      cases hb
      exact resolveStreams_writes_free st u.realm_id hr

/-! Claim theorems. -/

/-- C5: bit preservation.  For every UserMessage row (touched or not), the
repair leaves the id, user and message columns and all flag bits other than
bit 0 identical, and bit 0 never drops from 1 to 0: bits above bit 0 are
compared via a right shift, and the read bit can only grow, because the
single write of the tool is flags := flags OR 1, never a field overwrite. -/
theorem c5_bit_preservation (st : Store) (u : UserProfile) :
    List.Forall₂ (fun um2 um =>
        um2.id = um.id ∧ um2.user_profile_id = um.user_profile_id ∧
        um2.message_id = um.message_id ∧
        um2.flags >>> 1 = um.flags >>> 1 ∧
        um.flags &&& 1 ≤ um2.flags &&& 1)
      (fix st u).store.usermessages st.usermessages := by
  rw [fix_store_eq, fix_unsubscribed_store_eq]
  dsimp only
  unfold setReadFlag
  rw [List.forall₂_map_left_iff]
  rw [List.forall₂_same]
  intro um _
  by_cases h : um.id ∈ (fix_unsubscribed st u).ids
  · rw [if_pos h]
    exact ⟨rfl, rfl, rfl, or_one_shiftRight um.flags, and_one_le_or_one um.flags⟩
  · rw [if_neg h]
    exact ⟨rfl, rfl, rfl, rfl, Nat.le_refl _⟩

/-- C8: unset-pointer no-op.  When the pointer is NULL or zero,
fix_pre_pointer returns at once with an empty query log (no store reads, no
writes, in particular no mute-checker stream lookups) and an empty id
list; all state is left unchanged since the pass performs nothing. -/
theorem c8_unset_pointer_noop (st : Store) (u : UserProfile)
    (h : u.pointer = none ∨ u.pointer = some 0) :
    fix_pre_pointer st u = .ok ([], []) := by
  rcases h with h | h
  · unfold fix_pre_pointer
    rw [h]
  · unfold fix_pre_pointer
    rw [h]
    rfl

/-- Witness for c8_unset_pointer_noop at the concrete fixture stB, whose
user has a NULL pointer. -/
theorem c8_unset_pointer_noop_witness :
    fix_pre_pointer stB uB = .ok ([], []) :=
  c8_unset_pointer_noop stB uB (Or.inl rfl)

/-- C9: the mute predicate is case-insensitive in the topic: topics equal up
to letter case (equal after lowercasing) give the same answer, and
lowercasing the topic first never changes the answer.  is_muted is a pure
function of the tups set and its two arguments, so it has no side effects
on the mute set or any other state. -/
theorem c9_is_muted_case_insensitive (tups : List (Nat × String)) (stream_id : Nat)
    (t1 t2 : String) (h : lowerStr t1 = lowerStr t2) :
    is_muted tups stream_id t1 = is_muted tups stream_id t2 ∧
    ∀ t : String, is_muted tups stream_id t = is_muted tups stream_id (lowerStr t) := by
  constructor
  · unfold is_muted
    rw [h]
  · intro t
    unfold is_muted
    rw [lowerStr_idem]

/-- Witness for c9_is_muted_case_insensitive on concrete topics differing
only in case. -/
theorem c9_is_muted_case_insensitive_witness :
    lowerStr "Hi" = lowerStr "hI" ∧
    is_muted [(1, "hi")] 1 "Hi" = is_muted [(1, "hi")] 1 "hI" :=
  ⟨by decide, (c9_is_muted_case_insensitive [(1, "hi")] 1 "Hi" "hI" (by decide)).1⟩

/-- C10: no short-circuit on an empty eligible-recipient set.  For a user
with a set pointer whose mute checker builds fine but who has no
active in_home_view channel subscription, fix_pre_pointer interpolates the
empty id list into its candidate query, whose IN clause is then the
malformed fragment in (), and executing it fails with a store error instead
of the pass completing as a no-op; by contrast, fix_unsubscribed with an
empty stale-recipient set returns after its first query, issuing nothing
further. -/
theorem c10_empty_recipient_set_not_short_circuited (st : Store) (u : UserProfile)
    (p : Nat) (hp : u.pointer = some p) (hp0 : ¬ p = 0)
    (tups : List (Nat × String)) (mlog : List Query)
    (hb : build_topic_mute_checker st u = .ok (tups, mlog))
    (helig : eligibleRecipientIds st u = [])
    (hstale : staleRecipientIds st u = []) :
    fix_pre_pointer st u = .error Err.storeError ∧
    inClause (eligibleRecipientIds st u) = "in ()" ∧
    fix_unsubscribed st u = ⟨st, [Query.selectStaleRecipients u.id], []⟩ := by
  refine ⟨?_, ?_, ?_⟩
  · unfold fix_pre_pointer
    rw [hp]
    dsimp only
    rw [if_neg hp0, hb]
    dsimp only
    rw [if_pos helig]
  · rw [helig]
    rfl
  · unfold fix_unsubscribed
    dsimp only
    rw [if_pos hstale]

/-- Witness for c10_empty_recipient_set_not_short_circuited at the concrete
fixture stE (set pointer, no mute rules, no subscriptions at all). -/
theorem c10_empty_recipient_set_not_short_circuited_witness :
    fix_pre_pointer stE uE = .error Err.storeError ∧
    inClause (eligibleRecipientIds stE uE) = "in ()" ∧
    fix_unsubscribed stE uE = ⟨stE, [Query.selectStaleRecipients uE.id], []⟩ :=
  c10_empty_recipient_set_not_short_circuited stE uE 10 rfl (by decide)
    [] [] rfl rfl rfl

/-- C7: an unresolvable muted channel name is fatal, never skipped.  If some
mute rule of the user names a channel whose case-insensitive realm-scoped
lookup returns an error, then for a user with a set pointer the pre-pointer
pass surfaces an error, the whole repair surfaces it, and the pass produces
no repair candidates: no execution path drops the failing rule and
continues. -/
theorem c7_unknown_channel_is_fatal (st : Store) (u : UserProfile)
    (p : Nat) (hp : u.pointer = some p) (hp0 : ¬ p = 0)
    (name : String) (hname : name ∈ u.muted_topics.map Prod.fst)
    (e0 : Err) (hfail : getStreamId st u.realm_id name = .error e0) :
    (∃ e, fix_pre_pointer st u = .error e) ∧
    (fix st u).err.isSome = true ∧ (fix st u).pass2Ids = [] := by
  have hb1 : ∃ e, build_topic_mute_checker st u = .error e :=
    build_topic_mute_checker_error st u hname hfail
  have hpre : ∀ st2 : Store, build_topic_mute_checker st2 u =
      build_topic_mute_checker st u → ∃ e, fix_pre_pointer st2 u = .error e := by
    intro st2 hsame
    obtain ⟨e, he⟩ := hb1
    refine ⟨e, ?_⟩
    unfold fix_pre_pointer
    rw [hp]
    dsimp only
    rw [if_neg hp0, hsame, he]
  have hrun : ∃ e, fix_pre_pointer (fix_unsubscribed st u).store u = .error e := by
    apply hpre
    rw [fix_unsubscribed_store_eq]
    rw [build_topic_mute_checker_frame]
  obtain ⟨e, he⟩ := hrun
  refine ⟨hpre st rfl, ?_, ?_⟩
  · unfold fix
    dsimp only
    rw [he]
    rfl
  · unfold fix
    dsimp only
    rw [he]

/-- Witness for c7_unknown_channel_is_fatal at the concrete fixture stC,
whose user mutes a topic of the nonexistent channel ghost. -/
theorem c7_unknown_channel_is_fatal_witness :
    (∃ e, fix_pre_pointer stC uC = .error e) ∧
    (fix stC uC).err.isSome = true ∧ (fix stC uC).pass2Ids = [] :=
  c7_unknown_channel_is_fatal stC uC 10 rfl (by decide) "ghost" (by decide)
    Err.unknownChannel rfl

/-- C6: mute exclusion.  A candidate row of the pre-pointer pass (unread,
message id at most the pointer, recipient in the eligible set) whose
channel id and topic are in the mute set (topic compared case-insensitively
through lowercasing) is excluded from the repair id list the pass computes,
and the pass touches no flag bits: its query log contains no write.  Row
ids are assumed unique, as the database primary keys guarantee. -/
theorem c6_muted_candidate_excluded (st : Store) (u : UserProfile)
    (p : Nat) (hp : u.pointer = some p)
    (tups : List (Nat × String)) (mlog : List Query)
    (hb : build_topic_mute_checker st u = .ok (tups, mlog))
    (qlog : List Query) (ids : List Nat)
    (hrun : fix_pre_pointer st u = .ok (qlog, ids))
    (um : UserMessage) (hum : um ∈ st.usermessages)
    (huser : um.user_profile_id = u.id) (hunread : um.flags &&& 1 = 0)
    (msg : Message) (hmsg : msg ∈ st.messages) (hmid : msg.id = um.message_id)
    (hptr : msg.id ≤ p)
    (helig : msg.recipient_id ∈ eligibleRecipientIds st u)
    (humu : ∀ x ∈ st.usermessages, x.id = um.id → x = um)
    (hmu : ∀ x ∈ st.messages, x.id = msg.id → x = msg)
    (hmuted : ∀ r ∈ st.recipients, r.id = msg.recipient_id →
      is_muted tups r.type_id msg.subject = true) :
    um.id ∉ ids ∧ ∀ q ∈ qlog, q.isWrite = false := by
  unfold fix_pre_pointer at hrun
  rw [hp] at hrun
  dsimp only at hrun
  by_cases hp0 : p = 0
  · rw [if_pos hp0] at hrun
    injection hrun with hrun
    injection hrun with h1 h2
    subst h1
    subst h2
    exact ⟨List.not_mem_nil um.id, fun q hq => absurd hq (List.not_mem_nil q)⟩
  · rw [if_neg hp0, hb] at hrun
    dsimp only at hrun
    have hene : ¬ eligibleRecipientIds st u = [] := by
      intro h0
      rw [h0] at helig
      exact absurd helig (List.not_mem_nil _)
    rw [if_neg hene] at hrun
    injection hrun with hrun
    injection hrun with h1 h2
    constructor
    · intro hmem
      rw [← h2] at hmem
      obtain ⟨row, hrow, hrowid⟩ := List.mem_map.mp hmem
      obtain ⟨hrowmem, hrowkeep⟩ := List.mem_filter.mp hrow
      obtain ⟨um2, hum2, m2, hm2, r2, hr2, hm2id, hr2id, _, _, _, _, heqrow⟩ :=
        mem_prePointerCandidates.mp hrowmem
      have hum2id : um2.id = um.id := by rw [← hrowid, ← heqrow]
      have hum2eq : um2 = um := humu um2 hum2 hum2id
      have hm2eq : m2 = msg := by
        apply hmu m2 hm2
        rw [hm2id, hum2eq, ← hmid]
      have hmut : is_muted tups r2.type_id msg.subject = true := by
        apply hmuted r2 hr2
        rw [hr2id, hm2eq]
      rw [← heqrow] at hrowkeep
      dsimp only at hrowkeep
      rw [hm2eq] at hrowkeep
      rw [hmut] at hrowkeep
      exact absurd hrowkeep (by decide)
    · intro q hq
      rw [← h1] at hq
      rcases List.mem_append.mp hq with h3 | h3
      · exact build_topic_mute_checker_writes_free st u hb q h3
      · rcases List.mem_cons.mp h3 with h4 | h4
        · rw [h4]; rfl
        · rcases List.mem_cons.mp h4 with h5 | h5
          · rw [h5]; rfl
          · exact absurd h5 (List.not_mem_nil q)

/-- Witness for c6_muted_candidate_excluded at the concrete fixture stD:
message 3 sits in muted topic Secret (mute rule sEcReT on channel General),
so usermessage 7 is excluded while unmuted usermessage 8 is found. -/
theorem c6_muted_candidate_excluded_witness :
    (7 : Nat) ∉ [(8 : Nat)] ∧
      ∀ q ∈ [Query.selectStreamId "General" 1, Query.selectNonMutedRecipients 1,
             Query.selectPrePointerCandidates 1 10 [1]], q.isWrite = false :=
  c6_muted_candidate_excluded stD uD 10 rfl [(100, "secret")]
    [Query.selectStreamId "General" 1] (by decide)
    [Query.selectStreamId "General" 1, Query.selectNonMutedRecipients 1,
     Query.selectPrePointerCandidates 1 10 [1]] [8] (by decide)
    ⟨7, 1, 3, 0⟩ (by decide) rfl rfl
    ⟨3, 1, "Secret"⟩ (by decide) rfl (by decide) (by decide)
    (by decide) (by decide) (by decide)

/-- C2 counterexample: the claim quantifies over every channel without an
active subscription, including channels with no subscription row at all,
but the stale-subscription query selects only recipients with an inactive
subscription row.  In fixture stB the user has no subscription rows
whatsoever, one unread message is addressed to channel recipient 1, the
repair succeeds, and the message is still unread afterwards. -/
theorem c2_no_subscription_row_counterexample :
    (∀ s ∈ stB.subscriptions, False) ∧
    (⟨1, 2, 100⟩ : Recipient) ∈ stB.recipients ∧
    (⟨3, 1, "hi"⟩ : Message) ∈ stB.messages ∧
    (fix stB uB).err = none ∧
    (⟨7, 1, 3, 0⟩ : UserMessage) ∈ (fix stB uB).store.usermessages ∧
    (0 : Nat) &&& 1 = 0 := by decide

/-- C2 amended: INV1 enforcement restricted to channels carrying an
inactive subscription row.  If the user holds a subscription row with
active = false to a channel-type recipient, then after the repair every
UserMessage of the user whose message is addressed to that recipient has
the read bit set.  Channels with no subscription row at all are untouched,
as the counterexample shows. -/
theorem c2_inactive_subscription_repaired (st : Store) (u : UserProfile)
    (s : Subscription) (hs : s ∈ st.subscriptions)
    (hsu : s.user_profile_id = u.id) (hsa : s.active = false)
    (r : Recipient) (hr : r ∈ st.recipients) (hrid : r.id = s.recipient_id)
    (hrt : r.type = 2) :
    ∀ um ∈ (fix st u).store.usermessages, um.user_profile_id = u.id →
      ∀ m ∈ st.messages, m.id = um.message_id → m.recipient_id = s.recipient_id →
        um.flags &&& 1 = 1 := by
  have hmem : s.recipient_id ∈ staleRecipientIds st u :=
    mem_staleRecipientIds.mpr ⟨s, hs, r, hr, hrid, hsu, hrt, hsa, rfl⟩
  have hne : ¬ staleRecipientIds st u = [] := by
    intro h0
    rw [h0] at hmem
    exact absurd hmem (List.not_mem_nil _)
  have hids : (fix_unsubscribed st u).ids =
      unsubscribedUnreadIds st u (staleRecipientIds st u) :=
    fix_unsubscribed_ids_eq st u hne
  rw [fix_store_eq, fix_unsubscribed_store_eq]
  dsimp only
  intro um hum huser m hm hmid hmrid
  obtain ⟨um0, hum0, heq⟩ := List.mem_map.mp hum
  by_cases h0 : um0.id ∈ (fix_unsubscribed st u).ids
  · rw [if_pos h0] at heq
    rw [← heq]
    exact or_one_and_one um0.flags
  · rw [if_neg h0] at heq
    subst heq
    by_cases hflag : um0.flags &&& 1 = 0
    · exfalso
      apply h0
      rw [hids]
      apply mem_unsubscribedUnreadIds.mpr
      refine ⟨um0, hum0, m, hm, hmid, huser, hflag, ?_, rfl⟩
      rw [hmrid]
      exact hmem
    · exact and_one_eq_one_of_ne_zero hflag

/-- Witness for c2_inactive_subscription_repaired at the concrete fixture
stC: usermessage 7 (flags 6, read bit clear) is addressed to the inactive
subscription channel, and after repair its row carries flags 7. -/
theorem c2_inactive_subscription_repaired_witness :
    ({ id := 7, user_profile_id := 1, message_id := 3, flags := 7 } :
      UserMessage).flags &&& 1 = 1 :=
  c2_inactive_subscription_repaired stC uC ⟨1, 1, false, true⟩ (by decide) rfl rfl
    ⟨1, 2, 100⟩ (by decide) rfl rfl
    ⟨7, 1, 3, 7⟩ (by decide) rfl ⟨3, 1, "hi"⟩ (by decide) rfl rfl

/-- C3 counterexample: no rollback exists.  In fixture stC the
stale-subscription pass sets the read bit of usermessage 7 (flags 6 to 7),
then the mute-checker lookup of the nonexistent channel ghost raises, and
the repair surfaces unknownChannel with the modified row still persisted:
the final usermessage table differs from the initial one. -/
theorem c3_no_rollback_counterexample :
    (fix stC uC).err = some Err.unknownChannel ∧
    (⟨7, 1, 3, 6⟩ : UserMessage) ∈ stC.usermessages ∧
    (⟨7, 1, 3, 7⟩ : UserMessage) ∈ (fix stC uC).store.usermessages ∧
    (fix stC uC).store.usermessages ≠ stC.usermessages := by decide

/-- C3 amended: when the repair surfaces an error, the writes already
performed by the stale-subscription pass persist rather than being rolled
back: the final usermessage table is exactly the initial one with the read
bit set on the ids of the first pass.  The connection runs in autocommit
mode and the source has no rollback path, so the transaction boundary the
claim asserts does not exist. -/
theorem c3_error_keeps_first_pass_writes (st : Store) (u : UserProfile) (e : Err)
    (herr : (fix st u).err = some e) :
    (fix st u).store.usermessages =
      setReadFlag st.usermessages (fix st u).pass1Ids := by
  rw [fix_store_eq, fix_unsubscribed_store_eq, fix_pass1Ids_eq]

/-- Witness for c3_error_keeps_first_pass_writes at the concrete fixture
stC, whose repair surfaces unknownChannel. -/
theorem c3_error_keeps_first_pass_writes_witness :
    (fix stC uC).store.usermessages =
      setReadFlag stC.usermessages (fix stC uC).pass1Ids :=
  c3_error_keeps_first_pass_writes stC uC Err.unknownChannel (by decide)

/-- C1 counterexample: in fixture stA every hypothesis of the claim holds
for usermessage 7 (set pointer 10, message 3 at most the pointer, read bit
clear, empty mute list, subscription active and in_home_view), the repair
succeeds, and yet the row is unchanged afterwards with the read bit still
clear: the pre-pointer pass never issues its write. -/
theorem c1_pre_pointer_unrepaired_counterexample :
    uA.pointer = some 10 ∧ uA.muted_topics = [] ∧
    (⟨1, 1, true, true⟩ : Subscription) ∈ stA.subscriptions ∧
    (⟨1, 2, 100⟩ : Recipient) ∈ stA.recipients ∧
    (⟨3, 1, "hi"⟩ : Message) ∈ stA.messages ∧
    (⟨7, 1, 3, 0⟩ : UserMessage) ∈ stA.usermessages ∧
    (fix stA uA).err = none ∧
    (fix stA uA).pass2Ids = [7] ∧
    (⟨7, 1, 3, 0⟩ : UserMessage) ∈ (fix stA uA).store.usermessages ∧
    (0 : Nat) &&& 1 = 0 := by decide

/-- C1 amended: the pre-pointer pass identifies but never repairs.  For a
user with a set pointer, a UserMessage meeting all conditions of the claim
(read bit clear, message id at most the pointer, topic not muted, channel
subscription active and in_home_view) has its id in the id list computed by
the pre-pointer pass, yet the repair leaves the row itself unchanged in the
store, read bit still clear, provided the user holds no inactive
subscription row to that channel (which would let the first pass repair
it).  Row ids are assumed unique, as the database primary keys
guarantee. -/
theorem c1_pre_pointer_found_but_never_repaired (st : Store) (u : UserProfile)
    (p : Nat) (hp : u.pointer = some p) (hp0 : ¬ p = 0)
    (tups : List (Nat × String)) (mlog : List Query)
    (hb : build_topic_mute_checker st u = .ok (tups, mlog))
    (um : UserMessage) (hum : um ∈ st.usermessages)
    (huser : um.user_profile_id = u.id) (hunread : um.flags &&& 1 = 0)
    (msg : Message) (hmsg : msg ∈ st.messages) (hmid : msg.id = um.message_id)
    (hptr : msg.id ≤ p)
    (r : Recipient) (hr : r ∈ st.recipients) (hrid : r.id = msg.recipient_id)
    (hrt : r.type = 2)
    (s : Subscription) (hs : s ∈ st.subscriptions) (hsu : s.user_profile_id = u.id)
    (hsrid : s.recipient_id = msg.recipient_id) (hsa : s.active = true)
    (hshv : s.in_home_view = true)
    (hnotmuted : is_muted tups r.type_id msg.subject = false)
    (humu : ∀ x ∈ st.usermessages, x.id = um.id → x = um)
    (hmu : ∀ x ∈ st.messages, x.id = msg.id → x = msg)
    (hallactive : ∀ x ∈ st.subscriptions, x.user_profile_id = u.id →
      x.recipient_id = msg.recipient_id → x.active = true) :
    um ∈ (fix st u).store.usermessages ∧ um.id ∈ (fix st u).pass2Ids := by
  have hnotstale : msg.recipient_id ∉ staleRecipientIds st u := by
    intro hmem
    obtain ⟨s2, hs2, r2, hr2, hr2id, hs2u, hr2t, hs2a, hs2rid⟩ :=
      mem_staleRecipientIds.mp hmem
    have h1 := hallactive s2 hs2 hs2u hs2rid
    rw [hs2a] at h1
    cases h1
  have hnotin1 : um.id ∉ (fix_unsubscribed st u).ids := by
    by_cases hstale : staleRecipientIds st u = []
    · rw [fix_unsubscribed_ids_nil st u hstale]
      exact List.not_mem_nil _
    · rw [fix_unsubscribed_ids_eq st u hstale]
      intro hmem
      obtain ⟨um2, hum2, m2, hm2, hm2id, _, _, hm2rec, hum2id⟩ :=
        mem_unsubscribedUnreadIds.mp hmem
      have hum2eq : um2 = um := humu um2 hum2 hum2id
      have hm2eq : m2 = msg := by
        apply hmu m2 hm2
        rw [hm2id, hum2eq, ← hmid]
      rw [hm2eq] at hm2rec
      exact hnotstale hm2rec
  have hstore : (fix_unsubscribed st u).store =
      { st with usermessages := setReadFlag st.usermessages (fix_unsubscribed st u).ids } :=
    fix_unsubscribed_store_eq st u
  have humL : um ∈ setReadFlag st.usermessages (fix_unsubscribed st u).ids := by
    unfold setReadFlag
    apply List.mem_map.mpr
    exact ⟨um, hum, by rw [if_neg hnotin1]⟩
  have heligmem : msg.recipient_id ∈ eligibleRecipientIds st u := by
    apply mem_eligibleRecipientIds.mpr
    refine ⟨s, hs, r, hr, ?_, hsu, hrt, hshv, hsa, hsrid⟩
    rw [hrid, hsrid]
  have hene : ¬ eligibleRecipientIds st u = [] := by
    intro h0
    rw [h0] at heligmem
    exact absurd heligmem (List.not_mem_nil _)
  have hcand : (um.id, r.type_id, msg.subject) ∈
      prePointerCandidates
        { st with usermessages := setReadFlag st.usermessages (fix_unsubscribed st u).ids }
        u p (eligibleRecipientIds st u) := by
    apply mem_prePointerCandidates.mpr
    exact ⟨um, humL, msg, hmsg, r, hr, hmid, hrid, huser, hptr, hunread, heligmem, rfl⟩
  have hrun : fix_pre_pointer
      { st with usermessages := setReadFlag st.usermessages (fix_unsubscribed st u).ids } u =
      .ok (mlog ++ [Query.selectNonMutedRecipients u.id,
                    Query.selectPrePointerCandidates u.id p (eligibleRecipientIds st u)],
           ((prePointerCandidates
               { st with usermessages := setReadFlag st.usermessages (fix_unsubscribed st u).ids }
               u p (eligibleRecipientIds st u)).filter
             (fun row => !is_muted tups row.2.1 row.2.2)).map (·.1)) := by
    unfold fix_pre_pointer
    rw [hp]
    dsimp only
    rw [if_neg hp0, build_topic_mute_checker_frame, hb]
    dsimp only
    rw [eligibleRecipientIds_frame]
    rw [if_neg hene]
  constructor
  · rw [fix_store_eq, hstore]
    exact humL
  · unfold fix
    dsimp only
    rw [hstore, hrun]
    dsimp only
    apply List.mem_map.mpr
    refine ⟨(um.id, r.type_id, msg.subject), ?_, rfl⟩
    apply List.mem_filter.mpr
    refine ⟨hcand, ?_⟩
    dsimp only
    rw [hnotmuted]
    rfl

/-- Witness for c1_pre_pointer_found_but_never_repaired at the concrete
fixture stA. -/
theorem c1_pre_pointer_found_but_never_repaired_witness :
    (⟨7, 1, 3, 0⟩ : UserMessage) ∈ (fix stA uA).store.usermessages ∧
    (7 : Nat) ∈ (fix stA uA).pass2Ids :=
  c1_pre_pointer_found_but_never_repaired stA uA 10 rfl (by decide) [] [] (by decide)
    ⟨7, 1, 3, 0⟩ (by decide) rfl rfl
    ⟨3, 1, "hi"⟩ (by decide) rfl (by decide)
    ⟨1, 2, 100⟩ (by decide) rfl rfl
    ⟨1, 1, true, true⟩ (by decide) rfl rfl rfl rfl
    (by decide) (by decide) (by decide) (by decide)

/-- Rerunning the stale-subscription pass after itself finds nothing and
changes nothing: every row its find step would select had its read bit set
by the first run, so the second run short-circuits before any write. -/
theorem fix_unsubscribed_rerun_noop (st : Store) (u : UserProfile) :
    (fix_unsubscribed (fix_unsubscribed st u).store u).ids = [] ∧
    (fix_unsubscribed (fix_unsubscribed st u).store u).store =
      (fix_unsubscribed st u).store := by
  have hstore := fix_unsubscribed_store_eq st u
  have hstale2 : staleRecipientIds (fix_unsubscribed st u).store u =
      staleRecipientIds st u := by
    rw [hstore, staleRecipientIds_frame]
  by_cases hstale : staleRecipientIds st u = []
  · have hids : (fix_unsubscribed (fix_unsubscribed st u).store u).ids = [] :=
      fix_unsubscribed_ids_nil _ u (by rw [hstale2, hstale])
    refine ⟨hids, ?_⟩
    rw [fix_unsubscribed_store_eq _ u, hids, setReadFlag_nil]
  · have hkey : unsubscribedUnreadIds (fix_unsubscribed st u).store u
        (staleRecipientIds st u) = [] := by
      rw [List.eq_nil_iff_forall_not_mem]
      intro x hx
      obtain ⟨um2, hum2, m2, hm2, hm2id, hm2u, hm2fl, hm2rec, _⟩ :=
        mem_unsubscribedUnreadIds.mp hx
      rw [hstore] at hum2 hm2
      unfold setReadFlag at hum2
      obtain ⟨um0, hum0, heq⟩ := List.mem_map.mp hum2
      by_cases h0 : um0.id ∈ (fix_unsubscribed st u).ids
      · rw [if_pos h0] at heq
        rw [← heq] at hm2fl
        dsimp only at hm2fl
        rw [or_one_and_one] at hm2fl
        exact Nat.one_ne_zero hm2fl
      · rw [if_neg h0] at heq
        subst heq
        apply h0
        rw [fix_unsubscribed_ids_eq st u hstale]
        exact mem_unsubscribedUnreadIds.mpr
          ⟨um0, hum0, m2, hm2, hm2id, hm2u, hm2fl, hm2rec, rfl⟩
    have hstale2ne : ¬ staleRecipientIds (fix_unsubscribed st u).store u = [] := by
      rw [hstale2]
      exact hstale
    have hids : (fix_unsubscribed (fix_unsubscribed st u).store u).ids = [] := by
      rw [fix_unsubscribed_ids_eq _ u hstale2ne, hstale2, hkey]
    refine ⟨hids, ?_⟩
    rw [fix_unsubscribed_store_eq _ u, hids, setReadFlag_nil]

/-- C4 counterexample: the second run does not find zero messages to clear.
In fixture stA the first run leaves usermessage 7 unread (the pre-pointer
pass never writes), so the second run finds the same nonempty candidate
list [7] again even though the store is unchanged between the runs. -/
theorem c4_second_run_finds_again_counterexample :
    (fix (fix stA uA).store uA).store = (fix stA uA).store ∧
    (fix (fix stA uA).store uA).pass2Ids = [7] ∧
    ¬ (fix (fix stA uA).store uA).pass2Ids = [] := by decide

/-- C4 amended: repair is idempotent on the store, and the second run's
stale-subscription pass finds zero messages; but because the pre-pointer
pass never writes, its candidate list can be the same nonempty list on
both runs, so the full finds-zero part of the claim fails (see the
counterexample). -/
theorem c4_repair_idempotent_on_store (st : Store) (u : UserProfile) :
    (fix (fix st u).store u).store = (fix st u).store ∧
    (fix (fix st u).store u).pass1Ids = [] := by
  have h := fix_unsubscribed_rerun_noop st u
  constructor
  · rw [fix_store_eq (fix st u).store u, fix_store_eq st u]
    exact h.2
  · rw [fix_pass1Ids_eq, fix_store_eq st u]
    exact h.1

end FixUnreads
